import Mathlib

/-!
Shallow embedding of the two Express servers of this repository
(src/backend/server.js, the two-people "polaroid" service, and
src/unnamed/part_000, the single-photo "flex photo" enhancement service).

Bytes are modelled as `List Nat` (each element a byte value), JS strings as
Lean `String`, an absent JS value (`undefined`) as `Option.none`, and the
outbound axios calls as records passed to oracle functions.  Each request
handler returns, besides its JSON response, the list of provider calls it
issued and the output file it wrote, so that temporal properties ("the second
call is never issued") are statements about that trace.
-/

/-- Truthiness of a possibly-undefined JS string, as used by
`!!process.env.OPENAI_API_KEY` and `!userPrompt`: `undefined` and the empty
string are falsy, every other string is truthy. -/
def jsTruthyStr : Option String → Bool
  | none => false
  | some s => s ≠ ""

/-- JS `String.prototype.trim`: strip leading and trailing whitespace. -/
def jsTrim (s : String) : String :=
  ⟨((s.data.dropWhile Char.isWhitespace).reverse.dropWhile
      Char.isWhitespace).reverse⟩

/-- Index of the last occurrence of `'.'` in a character list, if any. -/
def lastDotIdx (cs : List Char) : Option Nat :=
  (List.range cs.length).foldl
    (fun acc i => if cs.getD i ' ' == '.' then some i else acc) none

/-- Node's `path.extname` restricted to plain file names: the text from the
last `'.'` to the end, and `""` when there is no dot or the only dot starts
the name (dotfiles such as `.bashrc`). -/
def extname (name : String) : String :=
  match lastDotIdx name.data with
  | none => ""
  | some 0 => ""
  | some i => ⟨name.data.drop i⟩

/-- JS `String.prototype.toLowerCase` (ASCII range, which covers the
extensions and MIME types at issue). -/
def toLowerCase (s : String) : String := ⟨s.data.map Char.toLower⟩

/-- The base64 alphabet used by Node's `Buffer` (RFC 4648, standard). -/
def base64Alphabet : List Char :=
  "ABCDEFGHIJKLMNOPQRSTUVWXYZabcdefghijklmnopqrstuvwxyz0123456789+/".data

/-- Character of the base64 alphabet at a sextet value. -/
def b64CharOf (n : Nat) : Char := base64Alphabet.getD n 'A'

/-- Base64-encode a byte list three bytes at a time, with `'='` padding, as
Node's `buffer.toString(\x27base64\x27)` does. -/
def base64EncodeChunks : List Nat → List Char
  | [] => []
  | [a] => [b64CharOf (a / 4), b64CharOf (a % 4 * 16), '=', '=']
  | [a, b] => [b64CharOf (a / 4), b64CharOf (a % 4 * 16 + b / 16),
      b64CharOf (b % 16 * 4), '=']
  | a :: b :: c :: rest =>
      b64CharOf (a / 4) :: b64CharOf (a % 4 * 16 + b / 16) ::
        b64CharOf (b % 16 * 4 + c / 64) :: b64CharOf (c % 64) ::
          base64EncodeChunks rest

/-- Node `Buffer.from(bytes).toString(\x27base64\x27)`, the body of the
server's `imageToBase64` helper applied to the stored file's bytes. -/
def base64Encode (bs : List Nat) : String := ⟨base64EncodeChunks bs⟩

/-- Value of a character in the base64 alphabet, scanning with an index. -/
def b64ValueAux : List Char → Char → Nat → Option Nat
  | [], _, _ => none
  | a :: rest, c, i => if a == c then some i else b64ValueAux rest c (i + 1)

/-- Sextet value of a base64 character; `none` for padding, whitespace and
any character outside the alphabet (Node skips those). -/
def b64Value (c : Char) : Option Nat := b64ValueAux base64Alphabet c 0

/-- Regroup sextets into bytes; a trailing lone sextet contributes nothing,
matching Node's forgiving decoder. -/
def sextetsToBytes : List Nat → List Nat
  | a :: b :: c :: d :: rest =>
      (a * 4 + b / 16) :: (b % 16 * 16 + c / 4) :: (c % 4 * 64 + d) ::
        sextetsToBytes rest
  | [a, b] => [a * 4 + b / 16]
  | [a, b, c] => [a * 4 + b / 16, b % 16 * 16 + c / 4]
  | _ => []

/-- Node `Buffer.from(s, \x27base64\x27)`: a total function on strings —
characters outside the alphabet are dropped, never an exception. -/
def bufferFromBase64 (s : String) : List Nat :=
  sextetsToBytes (s.data.filterMap b64Value)

/-- The data-URI built by both servers:
`` data:<mimeType>;base64,<base64Image> ``. -/
def dataURI (mimeType base64Image : String) : String :=
  "data:" ++ mimeType ++ ";base64," ++ base64Image

/-- `firstMatches pat l`: `pat` is an initial segment of `l`. -/
def firstMatches : List Char → List Char → Bool
  | [], _ => true
  | _ :: _, [] => false
  | a :: as, b :: bs => a == b && firstMatches as bs

/-- `containsSeq pat l`: `pat` occurs inside `l` as a contiguous run. -/
def containsSeq (pat : List Char) : List Char → Bool
  | [] => firstMatches pat []
  | b :: bs => firstMatches pat (b :: bs) || containsSeq pat bs

/-- JS `/jpeg|jpg|png|webp/.test(s)`: an unanchored regex, so it holds as
soon as `s` CONTAINS one of the four words as a substring. -/
def allowedTypesTest (s : String) : Bool :=
  containsSeq "jpeg".data s.data || containsSeq "jpg".data s.data ||
    containsSeq "png".data s.data || containsSeq "webp".data s.data

/-- The multer `fileFilter` shared by both servers: accept exactly when both
the lowercased extension of `originalname` and the declared `mimetype` pass
the unanchored regex test; otherwise the callback receives an error. -/
def fileFilterAccepts (originalname mimetype : String) : Bool :=
  allowedTypesTest (toLowerCase (extname originalname)) &&
    allowedTypesTest mimetype

/-- The extension allow-list named by the spec. -/
def allowedExtSet : List String := [".jpg", ".jpeg", ".png", ".webp"]

theorem extname_fakepng : extname "a.fakepng" = ".fakepng" := by decide

/-- Claim C3, counterexample: the file `a.fakepng` has extension `.fakepng`,
outside `{jpg, jpeg, png, webp}`, yet the filter accepts it (with declared
content-type `image/png`), because the unanchored regex finds `png` inside
`fakepng`.  So an upload with an extension outside the set is NOT always
rejected. -/
theorem c3_counterexample :
    fileFilterAccepts "a.fakepng" "image/png" = true ∧
      extname "a.fakepng" ∉ allowedExtSet := by
  decide

/-- Claim C3, amended: whenever the lowercased extension contains none of
`jpeg`, `jpg`, `png`, `webp` as a substring, the filter rejects the file,
whatever content-type the client declared. -/
theorem c3_amended (originalname mimetype : String)
    (h : allowedTypesTest (toLowerCase (extname originalname)) = false) :
    fileFilterAccepts originalname mimetype = false := by
  simp [fileFilterAccepts, h]

/-- Witness for `c3_amended`: a `.svg` upload is rejected even with declared
content-type `image/png`. -/
theorem c3_amended_witness :
    fileFilterAccepts "vector.svg" "image/png" = false :=
  c3_amended "vector.svg" "image/png" (by decide)

/-- The fixed style template of POST /api/enhance/iphone17pro
(`IPHONE_17_PRO_STYLE_PROMPT` in src/unnamed/part_000). -/
def IPHONE_17_PRO_STYLE_PROMPT : String :=
  "Transform this photo to match the iPhone 17 Pro camera style with these characteristics:\n- Rich, lively colors with accurate neutral white balance\n- Wide dynamic range with smooth transitions between shadows and highlights\n- Sharp detail with natural texture rendering (avoid painterly/artificial look)\n- Warm, naturally saturated skin tones if people are present\n- Deep Fusion-style processing that preserves fine textures and reduces noise\n- Smart HDR 5-style balanced exposure across the entire frame\n- Professional-grade clarity and contrast\n- Natural bokeh if depth is present\nKeep the composition identical, only enhance the color grading, dynamic range, and overall processing quality to match flagship iPhone 17 Pro output."

/-- The fixed background template of POST /api/enhance/monaco
(`MONACO_SUPERCAR_PROMPT` in src/unnamed/part_000). -/
def MONACO_SUPERCAR_PROMPT : String :=
  "Replace the background of this photo with a luxurious Monaco setting featuring:\n- A stunning supercar (Lamborghini, Ferrari, or McLaren) parked nearby\n- The iconic Monaco harbor with luxury yachts in the background\n- Mediterranean blue sky with soft clouds\n- Palm trees and elegant architecture\n- Golden hour lighting with warm, cinematic tones\n- Reflective surfaces showing the glamorous atmosphere\nKeep the person/subject in the foreground perfectly preserved with natural lighting that matches the new background. Make the composite look completely realistic and seamless, as if the photo was actually taken in Monaco."

/-- The combined template built inside POST /api/enhance/full
(`FULL_PROMPT` in src/unnamed/part_000). -/
def FULL_PROMPT : String :=
  MONACO_SUPERCAR_PROMPT ++
    "\n\nAdditionally, apply iPhone 17 Pro camera processing:\n- Rich, lively colors with neutral white balance\n- Wide dynamic range with smooth shadow/highlight transitions\n- Sharp detail with natural texture rendering\n- Professional-grade clarity and cinematic color grading"

/-- Text of `buildPolaroidPrompt` before the interpolated user prompt
(src/backend/server.js, lines 50-60). -/
def polaroidTemplateHead : String :=
  "Create an authentic vintage Polaroid photograph of the two people from the uploaded photos.\n\nPOLAROID AESTHETIC (critical for realism):\n- Classic Polaroid instant film look with slightly faded, warm colors\n- Natural film grain throughout the image\n- Soft focus with slight blur at edges\n- That authentic \"flash photography\" look\n- White Polaroid frame border around the image\n\nWHAT THEY\x27RE DOING:\n"

/-- Text of `buildPolaroidPrompt` after the interpolated user prompt
(src/backend/server.js, lines 61-67). -/
def polaroidTemplateTail : String :=
  "\n\nPRESERVE BOTH PEOPLE:\n- Keep both people\x27s faces, features, and likeness EXACTLY as they appear in their uploaded photos\n- Their clothing, hair, and distinguishing features should match the originals\n- Natural poses and expressions that fit the scene\n\nThe final image should look like a genuine Polaroid that a friend snapped - nostalgic, warm, and authentic. Make it feel like a real captured moment between these two people."

/-- `buildPolaroidPrompt` of src/backend/server.js: the fixed template with
the user prompt interpolated between head and tail. -/
def buildPolaroidPrompt (userPrompt : String) : String :=
  polaroidTemplateHead ++ userPrompt ++ polaroidTemplateTail

/-- The instruction text of the single-image vision call
(src/unnamed/part_000, line 118). -/
def visionAnalysisText : String :=
  "Analyze this image in detail. Describe the subject, their pose, clothing, and any important visual elements that need to be preserved."

/-- The instruction text of the two-photo vision call
(src/backend/server.js, line 112). -/
def polaroidAnalysisText : String :=
  "Analyze these two photos. For each person, describe in detail: their face (skin tone, facial features, hair color/style), their clothing, their body type, and any distinguishing features. Label them as Person 1 and Person 2."

/-- The axios per-request options the servers set (besides headers, which
carry no claim-relevant data): only the timeout, absent when the source
passes no `timeout` field. -/
structure AxiosConfig where
  timeout : Option Nat
deriving DecidableEq, Repr

/-- An outbound POST to `/v1/chat/completions` as both servers build it:
one user message holding an instruction text and data-URI image parts. -/
structure ChatCall where
  url : String
  model : String
  contentText : String
  imageUrls : List String
  maxTokens : Nat
  config : AxiosConfig
deriving DecidableEq, Repr

/-- An outbound POST to `/v1/images/generations`. -/
structure GenCall where
  url : String
  model : String
  prompt : String
  n : Nat
  size : String
  quality : String
  responseFormat : String
  config : AxiosConfig
deriving DecidableEq, Repr

/-- An outbound POST to `/v1/images/edits`. -/
structure EditCall where
  url : String
  model : String
  image : String
  prompt : String
  n : Nat
  size : String
  responseFormat : String
  config : AxiosConfig
deriving DecidableEq, Repr

/-- A provider call issued over the network, as recorded in a trace. -/
inductive ProviderCall where
  | chat : ChatCall → ProviderCall
  | generation : GenCall → ProviderCall
  | edit : EditCall → ProviderCall
deriving DecidableEq, Repr

/-- Whether a trace entry is an image-generation call (the second call of a
describe-then-generate pipeline). -/
def ProviderCall.isGenerationCall : ProviderCall → Bool
  | .generation _ => true
  | _ => false

/-- The timeout configured on a trace entry, when one was set. -/
def ProviderCall.timeoutOf : ProviderCall → Option Nat
  | .chat c => c.config.timeout
  | .generation c => c.config.timeout
  | .edit c => c.config.timeout

/-- The generation prompt of `callOpenAIVisionAndGenerate`
(src/unnamed/part_000, line 146): the fixed prompt with the returned image
description appended. -/
def visionGenerationPrompt (prompt imageDescription : String) : String :=
  prompt ++ "\n\nSubject to preserve: " ++ imageDescription

/-- The generation prompt of `generateTwoPeoplePolaroid`
(src/backend/server.js, line 147): the templated polaroid prompt with the
returned description of the two people appended. -/
def polaroidGenerationPrompt (userPrompt peopleDescription : String) : String :=
  buildPolaroidPrompt userPrompt ++
    "\n\nDETAILED DESCRIPTION OF THE TWO PEOPLE TO INCLUDE:\n" ++
      peopleDescription

/-- The vision call of `callOpenAIVisionAndGenerate` (src/unnamed/part_000,
lines 108-137).  No `timeout` appears in its axios options. -/
def visionAnalysisCall (base64Image mimeType : String) : ChatCall :=
  { url := "https://api.openai.com/v1/chat/completions"
    model := "gpt-4o"
    contentText := visionAnalysisText
    imageUrls := [dataURI mimeType base64Image]
    maxTokens := 500
    config := { timeout := none } }

/-- The generation call of `callOpenAIVisionAndGenerate`
(src/unnamed/part_000, lines 142-159), with its 120000 ms timeout. -/
def visionGenCallOf (prompt imageDescription : String) : GenCall :=
  { url := "https://api.openai.com/v1/images/generations"
    model := "gpt-image-1"
    prompt := visionGenerationPrompt prompt imageDescription
    n := 1
    size := "1024x1024"
    quality := "high"
    responseFormat := "b64_json"
    config := { timeout := some 120000 } }

/-- The two-photo vision call of `generateTwoPeoplePolaroid`
(src/backend/server.js, lines 102-137).  No `timeout` appears in its axios
options. -/
def polaroidAnalysisCall (b1 b2 m1 m2 : String) : ChatCall :=
  { url := "https://api.openai.com/v1/chat/completions"
    model := "gpt-4o"
    contentText := polaroidAnalysisText
    imageUrls := [dataURI m1 b1, dataURI m2 b2]
    maxTokens := 800
    config := { timeout := none } }

/-- The generation call of `generateTwoPeoplePolaroid`
(src/backend/server.js, lines 143-160), with its 120000 ms timeout. -/
def polaroidGenCallOf (userPrompt peopleDescription : String) : GenCall :=
  { url := "https://api.openai.com/v1/images/generations"
    model := "gpt-image-1"
    prompt := polaroidGenerationPrompt userPrompt peopleDescription
    n := 1
    size := "1024x1024"
    quality := "high"
    responseFormat := "b64_json"
    config := { timeout := some 120000 } }

/-- The image-edit call of `callOpenAIImageEdit` (both servers), with its
120000 ms timeout.  Its `image` field is the data-URI of the upload. -/
def editCallOf (base64Image prompt mimeType : String) : EditCall :=
  { url := "https://api.openai.com/v1/images/edits"
    model := "gpt-image-1"
    image := dataURI mimeType base64Image
    prompt := prompt
    n := 1
    size := "1024x1024"
    responseFormat := "b64_json"
    config := { timeout := some 120000 } }

/-- `callOpenAIImageEdit` of both servers, against an oracle standing for
axios: a single edit call whose `data.data[0].b64_json` string (or failure)
is the oracle's answer.  Returns the result and the issued-call trace. -/
def callOpenAIImageEdit (editApi : EditCall → Except String String)
    (base64Image prompt mimeType : String) :
    Except String String × List ProviderCall :=
  let c := editCallOf base64Image prompt mimeType
  (editApi c, [ProviderCall.edit c])

/-- `callOpenAIVisionAndGenerate` of src/unnamed/part_000: awaits the vision
call; only when it succeeds is the generation call built (from the returned
description) and issued.  A rejected first await propagates out of the async
function before the second `axios.post` is reached. -/
def callOpenAIVisionAndGenerate (chatApi : ChatCall → Except String String)
    (genApi : GenCall → Except String String)
    (base64Image prompt mimeType : String) :
    Except String String × List ProviderCall :=
  let analysisCall := visionAnalysisCall base64Image mimeType
  match chatApi analysisCall with
  | Except.error e => (Except.error e, [ProviderCall.chat analysisCall])
  | Except.ok imageDescription =>
    let genCall := visionGenCallOf prompt imageDescription
    (genApi genCall,
      [ProviderCall.chat analysisCall, ProviderCall.generation genCall])

/-- `generateTwoPeoplePolaroid` of src/backend/server.js: same
describe-then-generate shape over two photos. -/
def generateTwoPeoplePolaroid (chatApi : ChatCall → Except String String)
    (genApi : GenCall → Except String String)
    (image1Base64 image2Base64 userPrompt mimeType1 mimeType2 : String) :
    Except String String × List ProviderCall :=
  let analysisCall :=
    polaroidAnalysisCall image1Base64 image2Base64 mimeType1 mimeType2
  match chatApi analysisCall with
  | Except.error e => (Except.error e, [ProviderCall.chat analysisCall])
  | Except.ok peopleDescription =>
    let genCall := polaroidGenCallOf userPrompt peopleDescription
    (genApi genCall,
      [ProviderCall.chat analysisCall, ProviderCall.generation genCall])

/-- An uploaded file as multer hands it to a handler: the client-supplied
name and declared content-type, the generated storage name, and the stored
bytes (`req.file.path` read back by `imageToBase64`). -/
structure UploadedFile where
  originalname : String
  mimetype : String
  filename : String
  bytes : List Nat
deriving DecidableEq, Repr

/-- JSON response of the single-photo enhancement routes. -/
inductive EnhanceResponse where
  | badRequest : String → EnhanceResponse
  | serverError : String → String → EnhanceResponse
  | success : String → String → String → EnhanceResponse
deriving DecidableEq, Repr

/-- JSON response of POST /api/create. -/
inductive CreateResponse where
  | badRequest : String → CreateResponse
  | serverError : String → String → CreateResponse
  | success : String → CreateResponse
deriving DecidableEq, Repr

/-- What a single-photo handler invocation did: its response, the provider
calls it issued, and the output file it wrote (name and decoded bytes). -/
structure EnhanceOutcome where
  response : EnhanceResponse
  calls : List ProviderCall
  written : Option (String × List Nat)
deriving DecidableEq, Repr

/-- What a POST /api/create invocation did. -/
structure CreateOutcome where
  response : CreateResponse
  calls : List ProviderCall
  written : Option (String × List Nat)
deriving DecidableEq, Repr

/-- POST /api/enhance/iphone17pro (src/unnamed/part_000, lines 180-211):
reject a missing file, else issue the edit call with the fixed iPhone
template, and on success write `iphone17pro-<now>.png`. -/
def enhanceIphoneHandler (editApi : EditCall → Except String String)
    (file : Option UploadedFile) (now : Nat) : EnhanceOutcome :=
  match file with
  | none =>
    { response := EnhanceResponse.badRequest "No image file provided"
      calls := [], written := none }
  | some f =>
    let base64Image := base64Encode f.bytes
    let r := callOpenAIImageEdit editApi base64Image
      IPHONE_17_PRO_STYLE_PROMPT f.mimetype
    match r.1 with
    | Except.error e =>
      { response := EnhanceResponse.serverError "Failed to enhance image" e
        calls := r.2, written := none }
    | Except.ok b64 =>
      let outputFilename := "iphone17pro-" ++ toString now ++ ".png"
      { response := EnhanceResponse.success ("/uploads/" ++ f.filename)
          ("/outputs/" ++ outputFilename) "iPhone 17 Pro"
        calls := r.2
        written := some (outputFilename, bufferFromBase64 b64) }

/-- POST /api/enhance/monaco (src/unnamed/part_000, lines 214-245): the
describe-then-generate pipeline with the Monaco template; on success writes
`monaco-<now>.png`. -/
def enhanceMonacoHandler (chatApi : ChatCall → Except String String)
    (genApi : GenCall → Except String String)
    (file : Option UploadedFile) (now : Nat) : EnhanceOutcome :=
  match file with
  | none =>
    { response := EnhanceResponse.badRequest "No image file provided"
      calls := [], written := none }
  | some f =>
    let base64Image := base64Encode f.bytes
    let r := callOpenAIVisionAndGenerate chatApi genApi base64Image
      MONACO_SUPERCAR_PROMPT f.mimetype
    match r.1 with
    | Except.error e =>
      { response :=
          EnhanceResponse.serverError "Failed to apply Monaco background" e
        calls := r.2, written := none }
    | Except.ok b64 =>
      let outputFilename := "monaco-" ++ toString now ++ ".png"
      { response := EnhanceResponse.success ("/uploads/" ++ f.filename)
          ("/outputs/" ++ outputFilename) "Monaco Supercar"
        calls := r.2
        written := some (outputFilename, bufferFromBase64 b64) }

/-- POST /api/enhance/full (src/unnamed/part_000, lines 248-285): the same
pipeline with the combined template; on success writes
`flex-photo-<now>.png` (NOT `full-<now>.png`). -/
def enhanceFullHandler (chatApi : ChatCall → Except String String)
    (genApi : GenCall → Except String String)
    (file : Option UploadedFile) (now : Nat) : EnhanceOutcome :=
  match file with
  | none =>
    { response := EnhanceResponse.badRequest "No image file provided"
      calls := [], written := none }
  | some f =>
    let base64Image := base64Encode f.bytes
    let r := callOpenAIVisionAndGenerate chatApi genApi base64Image
      FULL_PROMPT f.mimetype
    match r.1 with
    | Except.error e =>
      { response := EnhanceResponse.serverError "Failed to process image" e
        calls := r.2, written := none }
    | Except.ok b64 =>
      let outputFilename := "flex-photo-" ++ toString now ++ ".png"
      { response := EnhanceResponse.success ("/uploads/" ++ f.filename)
          ("/outputs/" ++ outputFilename) "iPhone 17 Pro + Monaco Supercar"
        calls := r.2
        written := some (outputFilename, bufferFromBase64 b64) }

/-- POST /api/create (src/backend/server.js, lines 166-202): 400 unless
exactly two files arrived; 400 when the prompt field is falsy or blank
(`!userPrompt || userPrompt.trim().length === 0`); otherwise run
`generateTwoPeoplePolaroid` and on success write `polaroid-<now>.png`. -/
def createHandler (chatApi : ChatCall → Except String String)
    (genApi : GenCall → Except String String)
    (files : List UploadedFile) (promptField : Option String) (now : Nat) :
    CreateOutcome :=
  match files with
  | [f1, f2] =>
    match promptField with
    | none =>
      { response := CreateResponse.badRequest
          "Please provide a prompt describing what the people should be doing"
        calls := [], written := none }
    | some userPrompt =>
      if userPrompt = "" ∨ jsTrim userPrompt = "" then
        { response := CreateResponse.badRequest
            "Please provide a prompt describing what the people should be doing"
          calls := [], written := none }
      else
        let image1Base64 := base64Encode f1.bytes
        let image2Base64 := base64Encode f2.bytes
        let r := generateTwoPeoplePolaroid chatApi genApi image1Base64
          image2Base64 userPrompt f1.mimetype f2.mimetype
        match r.1 with
        | Except.error e =>
          { response := CreateResponse.serverError "Failed to create image" e
            calls := r.2, written := none }
        | Except.ok b64 =>
          let outputFilename := "polaroid-" ++ toString now ++ ".png"
          { response :=
              CreateResponse.success ("/outputs/" ++ outputFilename)
            calls := r.2
            written := some (outputFilename, bufferFromBase64 b64) }
  | _ =>
    { response := CreateResponse.badRequest "Please upload exactly 2 photos"
      calls := [], written := none }

/-- JSON response of GET /api/health. -/
structure HealthResponse where
  status : String
  apiKeyConfigured : Bool
deriving DecidableEq, Repr

/-- GET /api/health of both servers: a pure function of the
`OPENAI_API_KEY` environment entry, issuing no provider call. -/
def healthHandler (apiKeyEnv : Option String) :
    HealthResponse × List ProviderCall :=
  ({ status := "ok", apiKeyConfigured := jsTruthyStr apiKeyEnv }, [])

/-- A chat oracle that always fails, standing for a rejected first await. -/
def chatErrOracle : ChatCall → Except String String :=
  fun _ => Except.error "connect ETIMEDOUT"

/-- A chat oracle that always answers with a fixed description. -/
def chatOkOracle : ChatCall → Except String String :=
  fun _ => Except.ok "Person 1 wears a red coat; Person 2 wears a blue hat."

/-- A generation oracle that always answers with a fixed payload. -/
def genOkOracle : GenCall → Except String String :=
  fun _ => Except.ok "AAEC"

/-- An edit oracle that always answers with a fixed payload. -/
def editOkOracle : EditCall → Except String String :=
  fun _ => Except.ok "AAEC"

/-- Claim C1: in both describe-then-generate pipelines, when the first
(vision) provider call fails, the trace of issued calls contains no
image-generation call — the second call is never issued. -/
theorem c1_vision_failure_blocks_generation
    (chatApi : ChatCall → Except String String)
    (genApi : GenCall → Except String String)
    (b p m b1 b2 u m1 m2 e1 e2 : String)
    (h1 : chatApi (visionAnalysisCall b m) = Except.error e1)
    (h2 : chatApi (polaroidAnalysisCall b1 b2 m1 m2) = Except.error e2) :
    ((callOpenAIVisionAndGenerate chatApi genApi b p m).2.all
        (fun c => !c.isGenerationCall)) = true ∧
      ((generateTwoPeoplePolaroid chatApi genApi b1 b2 u m1 m2).2.all
        (fun c => !c.isGenerationCall)) = true := by
  constructor
  · simp [callOpenAIVisionAndGenerate, h1, ProviderCall.isGenerationCall]
  · simp [generateTwoPeoplePolaroid, h2, ProviderCall.isGenerationCall]

/-- Witness for `c1_vision_failure_blocks_generation` at a failing oracle
and concrete inputs. -/
theorem c1_witness :
    ((callOpenAIVisionAndGenerate chatErrOracle genOkOracle "QUJD" "make it nice"
        "image/png").2.all (fun c => !c.isGenerationCall)) = true ∧
      ((generateTwoPeoplePolaroid chatErrOracle genOkOracle "QUJD" "REVG"
        "having coffee" "image/png" "image/jpeg").2.all
          (fun c => !c.isGenerationCall)) = true :=
  c1_vision_failure_blocks_generation chatErrOracle genOkOracle
    "QUJD" "make it nice" "image/png" "QUJD" "REVG" "having coffee"
    "image/png" "image/jpeg" "connect ETIMEDOUT" "connect ETIMEDOUT" rfl rfl

/-- Claim C2: when the vision call returns a description, the issued
generation call's prompt is the fixed template text with that description
appended — the description appears verbatim as a contiguous substring, and
the template text is a prefix — in both pipelines. -/
theorem c2_description_composed_into_generation_prompt
    (chatApi : ChatCall → Except String String)
    (genApi : GenCall → Except String String)
    (b p m b1 b2 u m1 m2 d d2 : String)
    (h1 : chatApi (visionAnalysisCall b m) = Except.ok d)
    (h2 : chatApi (polaroidAnalysisCall b1 b2 m1 m2) = Except.ok d2) :
    ((callOpenAIVisionAndGenerate chatApi genApi b p m).2 =
        [ProviderCall.chat (visionAnalysisCall b m),
          ProviderCall.generation (visionGenCallOf p d)] ∧
      d.data <:+: (visionGenCallOf p d).prompt.data ∧
      p.data <+: (visionGenCallOf p d).prompt.data) ∧
    ((generateTwoPeoplePolaroid chatApi genApi b1 b2 u m1 m2).2 =
        [ProviderCall.chat (polaroidAnalysisCall b1 b2 m1 m2),
          ProviderCall.generation (polaroidGenCallOf u d2)] ∧
      d2.data <:+: (polaroidGenCallOf u d2).prompt.data ∧
      (buildPolaroidPrompt u).data <+:
        (polaroidGenCallOf u d2).prompt.data) := by
  refine ⟨⟨?_, ?_, ?_⟩, ?_, ?_, ?_⟩
  · simp [callOpenAIVisionAndGenerate, h1]
  · show d.data <:+: (visionGenerationPrompt p d).data
    rw [visionGenerationPrompt, String.data_append, String.data_append]
    exact (List.suffix_append _ _).isInfix
  · show p.data <+: (visionGenerationPrompt p d).data
    rw [visionGenerationPrompt, String.data_append, String.data_append,
      List.append_assoc]
    exact List.prefix_append _ _
  · simp [generateTwoPeoplePolaroid, h2]
  · show d2.data <:+: (polaroidGenerationPrompt u d2).data
    rw [polaroidGenerationPrompt, String.data_append, String.data_append]
    exact (List.suffix_append _ _).isInfix
  · show (buildPolaroidPrompt u).data <+: (polaroidGenerationPrompt u d2).data
    rw [polaroidGenerationPrompt, String.data_append, String.data_append,
      List.append_assoc]
    exact List.prefix_append _ _

/-- Witness for `c2_description_composed_into_generation_prompt` at an
oracle answering a fixed description. -/
theorem c2_witness :
    ((callOpenAIVisionAndGenerate chatOkOracle genOkOracle "QUJD" "make it nice"
        "image/png").2 =
        [ProviderCall.chat (visionAnalysisCall "QUJD" "image/png"),
          ProviderCall.generation (visionGenCallOf "make it nice"
            "Person 1 wears a red coat; Person 2 wears a blue hat.")] ∧
      ("Person 1 wears a red coat; Person 2 wears a blue hat." : String).data <:+:
        (visionGenCallOf "make it nice"
          "Person 1 wears a red coat; Person 2 wears a blue hat.").prompt.data ∧
      ("make it nice" : String).data <+:
        (visionGenCallOf "make it nice"
          "Person 1 wears a red coat; Person 2 wears a blue hat.").prompt.data) ∧
    ((generateTwoPeoplePolaroid chatOkOracle genOkOracle "QUJD" "REVG"
        "having coffee" "image/png" "image/jpeg").2 =
        [ProviderCall.chat
            (polaroidAnalysisCall "QUJD" "REVG" "image/png" "image/jpeg"),
          ProviderCall.generation (polaroidGenCallOf "having coffee"
            "Person 1 wears a red coat; Person 2 wears a blue hat.")] ∧
      ("Person 1 wears a red coat; Person 2 wears a blue hat." : String).data <:+:
        (polaroidGenCallOf "having coffee"
          "Person 1 wears a red coat; Person 2 wears a blue hat.").prompt.data ∧
      (buildPolaroidPrompt "having coffee").data <+:
        (polaroidGenCallOf "having coffee"
          "Person 1 wears a red coat; Person 2 wears a blue hat.").prompt.data) :=
  c2_description_composed_into_generation_prompt chatOkOracle genOkOracle
    "QUJD" "make it nice" "image/png" "QUJD" "REVG" "having coffee"
    "image/png" "image/jpeg"
    "Person 1 wears a red coat; Person 2 wears a blue hat."
    "Person 1 wears a red coat; Person 2 wears a blue hat." rfl rfl

/-- Claim C4: whenever the number of uploaded files differs from 2, POST
/api/create answers 400 with `Please upload exactly 2 photos` and issues no
provider call (and writes nothing). -/
theorem c4_wrong_file_count_rejected
    (chatApi : ChatCall → Except String String)
    (genApi : GenCall → Except String String)
    (files : List UploadedFile) (promptField : Option String) (now : Nat)
    (h : files.length ≠ 2) :
    createHandler chatApi genApi files promptField now =
      { response := CreateResponse.badRequest "Please upload exactly 2 photos"
        calls := [], written := none } := by
  cases files with
  | nil => rfl
  | cons f1 t =>
    cases t with
    | nil => rfl
    | cons f2 t2 =>
      cases t2 with
      | nil => exact absurd rfl h
      | cons f3 t3 => rfl

/-- Witness for `c4_wrong_file_count_rejected` at an empty file list. -/
theorem c4_witness :
    createHandler chatOkOracle genOkOracle [] (some "having coffee") 0 =
      { response := CreateResponse.badRequest "Please upload exactly 2 photos"
        calls := [], written := none } :=
  c4_wrong_file_count_rejected chatOkOracle genOkOracle []
    (some "having coffee") 0 (by decide)

/-- Claim C5: with exactly two files but a missing or empty prompt field,
POST /api/create answers 400 and issues no provider call. -/
theorem c5_blank_prompt_rejected
    (chatApi : ChatCall → Except String String)
    (genApi : GenCall → Except String String)
    (f1 f2 : UploadedFile) (promptField : Option String) (now : Nat)
    (h : promptField = none ∨ promptField = some "") :
    (createHandler chatApi genApi [f1, f2] promptField now).response =
      CreateResponse.badRequest
        "Please provide a prompt describing what the people should be doing" ∧
      (createHandler chatApi genApi [f1, f2] promptField now).calls = [] := by
  rcases h with h | h <;> subst h
  · exact ⟨rfl, rfl⟩
  · constructor <;> simp [createHandler]

/-- Witness for `c5_blank_prompt_rejected` at an empty prompt string. -/
theorem c5_witness :
    (createHandler chatOkOracle genOkOracle
        [{ originalname := "a.png", mimetype := "image/png",
           filename := "1-1.png", bytes := [0] },
         { originalname := "b.jpg", mimetype := "image/jpeg",
           filename := "1-2.jpg", bytes := [1] }] (some "") 0).response =
      CreateResponse.badRequest
        "Please provide a prompt describing what the people should be doing" ∧
      (createHandler chatOkOracle genOkOracle
        [{ originalname := "a.png", mimetype := "image/png",
           filename := "1-1.png", bytes := [0] },
         { originalname := "b.jpg", mimetype := "image/jpeg",
           filename := "1-2.jpg", bytes := [1] }] (some "") 0).calls = [] :=
  c5_blank_prompt_rejected chatOkOracle genOkOracle
    { originalname := "a.png", mimetype := "image/png",
      filename := "1-1.png", bytes := [0] }
    { originalname := "b.jpg", mimetype := "image/jpeg",
      filename := "1-2.jpg", bytes := [1] } (some "") 0 (Or.inr rfl)

/-- Claim C6, counterexample: with `OPENAI_API_KEY` set to the empty string
— set, hence "otherwise" in the claim's wording — GET /api/health still
reports `apiKeyConfigured: false`, because `!!` is false on the empty
string. -/
theorem c6_counterexample :
    (healthHandler (some "")).1.apiKeyConfigured = false ∧
      (some "" : Option String) ≠ none := by
  exact ⟨rfl, by simp⟩

/-- Claim C6, amended: the flag is `true` exactly when the variable is set
to a non-empty string (unset OR empty give `false`), and the handler issues
no provider call. -/
theorem c6_amended (apiKeyEnv : Option String) :
    ((healthHandler apiKeyEnv).1.apiKeyConfigured = true ↔
        apiKeyEnv ≠ none ∧ apiKeyEnv ≠ some "") ∧
      (healthHandler apiKeyEnv).2 = [] := by
  refine ⟨?_, rfl⟩
  cases apiKeyEnv with
  | none => simp [healthHandler, jsTruthyStr]
  | some s => simp [healthHandler, jsTruthyStr]

/-- The per-call timeout the source actually configures: none on the two
chat/vision calls, 120000 ms on generation and edit calls. -/
def timeoutSpec : ProviderCall → Bool
  | ProviderCall.chat c => c.config.timeout == none
  | ProviderCall.generation c => c.config.timeout == some 120000
  | ProviderCall.edit c => c.config.timeout == some 120000

/-- Claim C7, counterexample: a successful run of the single-photo
describe-then-generate pipeline issues its vision call WITHOUT any timeout
(`[none, some 120000]`), so not every outbound call carries a two-minute
timeout. -/
theorem c7_counterexample :
    ((callOpenAIVisionAndGenerate chatOkOracle genOkOracle "QUJD" "p"
        "image/png").2.map ProviderCall.timeoutOf) = [none, some 120000] ∧
      ((callOpenAIVisionAndGenerate chatOkOracle genOkOracle "QUJD" "p"
        "image/png").2.all (fun c => c.timeoutOf.isSome)) = false := by
  exact ⟨rfl, rfl⟩

/-- Claim C7, amended: on every run, the generation and edit calls carry
the 120000 ms timeout, and the vision/description calls carry none. -/
theorem c7_amended (chatApi : ChatCall → Except String String)
    (genApi : GenCall → Except String String)
    (editApi : EditCall → Except String String)
    (b p m b1 b2 u m1 m2 eb ep em : String) :
    ((callOpenAIVisionAndGenerate chatApi genApi b p m).2.all
        timeoutSpec) = true ∧
      ((generateTwoPeoplePolaroid chatApi genApi b1 b2 u m1 m2).2.all
        timeoutSpec) = true ∧
      ((callOpenAIImageEdit editApi eb ep em).2.all timeoutSpec) = true := by
  refine ⟨?_, ?_, ?_⟩
  · cases hc : chatApi (visionAnalysisCall b m) with
    | error e =>
      simp only [callOpenAIVisionAndGenerate, hc]
      simp [timeoutSpec, visionAnalysisCall]
    | ok d =>
      simp only [callOpenAIVisionAndGenerate, hc]
      simp [timeoutSpec, visionAnalysisCall, visionGenCallOf]
  · cases hc : chatApi (polaroidAnalysisCall b1 b2 m1 m2) with
    | error e =>
      simp only [generateTwoPeoplePolaroid, hc]
      simp [timeoutSpec, polaroidAnalysisCall]
    | ok d =>
      simp only [generateTwoPeoplePolaroid, hc]
      simp [timeoutSpec, polaroidAnalysisCall, polaroidGenCallOf]
  · simp [callOpenAIImageEdit, timeoutSpec, editCallOf]

/-- The mode name of the combined route, as it appears in the route path
`/api/enhance/full` (src/unnamed/part_000, line 248) and in the frontend's
`EnhancementMode` union (src/unnamed/part_001, line 9). -/
def fullModeLabel : String := "full"

/-- Claim C8, counterexample: a successful request on the `full` mode route
writes `flex-photo-<now>.png`, not `<mode>-<now>.png` for its mode label
`full` — the output prefix is a per-route constant that does not always
match the mode label. -/
theorem c8_counterexample :
    ((enhanceFullHandler chatOkOracle genOkOracle
        (some { originalname := "a.png", mimetype := "image/png",
                filename := "1-1.png", bytes := [0] }) 0).written.map
        Prod.fst) = some "flex-photo-0.png" ∧
      "flex-photo-0.png" ≠ fullModeLabel ++ "-" ++ toString (0 : Nat) ++
        ".png" := by
  constructor
  · rfl
  · decide

/-- Claim C8, amended: on every successful request the output file is named
`<label>-<now>.png` where `<label>` is the handler's fixed constant:
`iphone17pro` and `monaco` match their route's mode name, but the combined
route uses `flex-photo` and the two-people route uses `polaroid`. -/
theorem c8_amended (desc payload p : String) (f f1 f2 : UploadedFile)
    (now : Nat) (hp : jsTrim p ≠ "") :
    ((enhanceIphoneHandler (fun _ => Except.ok payload) (some f)
          now).written.map Prod.fst =
        some ("iphone17pro-" ++ toString now ++ ".png")) ∧
      ((enhanceMonacoHandler (fun _ => Except.ok desc)
          (fun _ => Except.ok payload) (some f) now).written.map Prod.fst =
        some ("monaco-" ++ toString now ++ ".png")) ∧
      ((enhanceFullHandler (fun _ => Except.ok desc)
          (fun _ => Except.ok payload) (some f) now).written.map Prod.fst =
        some ("flex-photo-" ++ toString now ++ ".png")) ∧
      ((createHandler (fun _ => Except.ok desc) (fun _ => Except.ok payload)
          [f1, f2] (some p) now).written.map Prod.fst =
        some ("polaroid-" ++ toString now ++ ".png")) := by
  have hnp : ¬(p = "" ∨ jsTrim p = "") := by
    rintro (rfl | h)
    · exact hp rfl
    · exact hp h
  refine ⟨?_, ?_, ?_, ?_⟩
  · simp [enhanceIphoneHandler, callOpenAIImageEdit]
  · simp [enhanceMonacoHandler, callOpenAIVisionAndGenerate]
  · simp [enhanceFullHandler, callOpenAIVisionAndGenerate]
  · simp [createHandler, hnp, generateTwoPeoplePolaroid]

/-- Witness for `c8_amended` at concrete inputs. -/
theorem c8_amended_witness :
    ((enhanceIphoneHandler (fun _ => Except.ok "AAEC")
          (some { originalname := "a.png", mimetype := "image/png",
                  filename := "1-1.png", bytes := [0] }) 7).written.map
        Prod.fst = some ("iphone17pro-" ++ toString (7 : Nat) ++ ".png")) ∧
      ((enhanceMonacoHandler (fun _ => Except.ok "a person")
          (fun _ => Except.ok "AAEC")
          (some { originalname := "a.png", mimetype := "image/png",
                  filename := "1-1.png", bytes := [0] }) 7).written.map
        Prod.fst = some ("monaco-" ++ toString (7 : Nat) ++ ".png")) ∧
      ((enhanceFullHandler (fun _ => Except.ok "a person")
          (fun _ => Except.ok "AAEC")
          (some { originalname := "a.png", mimetype := "image/png",
                  filename := "1-1.png", bytes := [0] }) 7).written.map
        Prod.fst = some ("flex-photo-" ++ toString (7 : Nat) ++ ".png")) ∧
      ((createHandler (fun _ => Except.ok "a person")
          (fun _ => Except.ok "AAEC")
          [{ originalname := "a.png", mimetype := "image/png",
             filename := "1-1.png", bytes := [0] },
           { originalname := "b.jpg", mimetype := "image/jpeg",
             filename := "1-2.jpg", bytes := [1] }] (some "having coffee")
          7).written.map Prod.fst =
        some ("polaroid-" ++ toString (7 : Nat) ++ ".png")) :=
  c8_amended "a person" "AAEC" "having coffee"
    { originalname := "a.png", mimetype := "image/png",
      filename := "1-1.png", bytes := [0] }
    { originalname := "a.png", mimetype := "image/png",
      filename := "1-1.png", bytes := [0] }
    { originalname := "b.jpg", mimetype := "image/jpeg",
      filename := "1-2.jpg", bytes := [1] } 7 (by decide)

/-- Claim C9: the data-URI forwarded to the provider is exactly
`data:<declared mimetype>;base64,<base64 of the stored bytes>` — in the
edit call of the iphone17pro route and in the vision call of the
two-people route; the MIME part is the client-declared content-type, never
derived from the bytes. -/
theorem c9_data_uri_uses_declared_mimetype
    (editApi : EditCall → Except String String)
    (chatApi : ChatCall → Except String String)
    (genApi : GenCall → Except String String)
    (f f1 f2 : UploadedFile) (p : String) (now : Nat)
    (hp : jsTrim p ≠ "") :
    ((enhanceIphoneHandler editApi (some f) now).calls =
        [ProviderCall.edit (editCallOf (base64Encode f.bytes)
          IPHONE_17_PRO_STYLE_PROMPT f.mimetype)] ∧
      (editCallOf (base64Encode f.bytes) IPHONE_17_PRO_STYLE_PROMPT
          f.mimetype).image =
        "data:" ++ f.mimetype ++ ";base64," ++ base64Encode f.bytes) ∧
    ((createHandler chatApi genApi [f1, f2] (some p) now).calls.head? =
        some (ProviderCall.chat (polaroidAnalysisCall (base64Encode f1.bytes)
          (base64Encode f2.bytes) f1.mimetype f2.mimetype)) ∧
      (polaroidAnalysisCall (base64Encode f1.bytes) (base64Encode f2.bytes)
          f1.mimetype f2.mimetype).imageUrls =
        ["data:" ++ f1.mimetype ++ ";base64," ++ base64Encode f1.bytes,
          "data:" ++ f2.mimetype ++ ";base64," ++ base64Encode f2.bytes]) := by
  have hnp : ¬(p = "" ∨ jsTrim p = "") := by
    rintro (rfl | h)
    · exact hp rfl
    · exact hp h
  refine ⟨⟨?_, rfl⟩, ?_, rfl⟩
  · cases he : editApi (editCallOf (base64Encode f.bytes)
        IPHONE_17_PRO_STYLE_PROMPT f.mimetype) with
    | error e => simp [enhanceIphoneHandler, callOpenAIImageEdit, he]
    | ok b64 => simp [enhanceIphoneHandler, callOpenAIImageEdit, he]
  · cases hc : chatApi (polaroidAnalysisCall (base64Encode f1.bytes)
        (base64Encode f2.bytes) f1.mimetype f2.mimetype) with
    | error e =>
      simp [createHandler, hnp, generateTwoPeoplePolaroid, hc]
    | ok d =>
      cases hg : genApi (polaroidGenCallOf p d) with
      | error e2 =>
        simp [createHandler, hnp, generateTwoPeoplePolaroid, hc, hg]
      | ok b64 =>
        simp [createHandler, hnp, generateTwoPeoplePolaroid, hc, hg]

/-- Witness for `c9_data_uri_uses_declared_mimetype` at concrete inputs. -/
theorem c9_witness :
    ((enhanceIphoneHandler editOkOracle
        (some { originalname := "a.png", mimetype := "image/png",
                filename := "1-1.png", bytes := [0] }) 7).calls =
        [ProviderCall.edit (editCallOf (base64Encode [0])
          IPHONE_17_PRO_STYLE_PROMPT "image/png")] ∧
      (editCallOf (base64Encode [0]) IPHONE_17_PRO_STYLE_PROMPT
          "image/png").image =
        "data:" ++ "image/png" ++ ";base64," ++ base64Encode [0]) ∧
    ((createHandler chatOkOracle genOkOracle
        [{ originalname := "a.png", mimetype := "image/png",
           filename := "1-1.png", bytes := [0] },
         { originalname := "b.jpg", mimetype := "image/jpeg",
           filename := "1-2.jpg", bytes := [1] }] (some "having coffee")
        7).calls.head? =
        some (ProviderCall.chat (polaroidAnalysisCall (base64Encode [0])
          (base64Encode [1]) "image/png" "image/jpeg")) ∧
      (polaroidAnalysisCall (base64Encode [0]) (base64Encode [1]) "image/png"
          "image/jpeg").imageUrls =
        ["data:" ++ "image/png" ++ ";base64," ++ base64Encode [0],
          "data:" ++ "image/jpeg" ++ ";base64," ++ base64Encode [1]]) :=
  c9_data_uri_uses_declared_mimetype editOkOracle chatOkOracle genOkOracle
    { originalname := "a.png", mimetype := "image/png",
      filename := "1-1.png", bytes := [0] }
    { originalname := "a.png", mimetype := "image/png",
      filename := "1-1.png", bytes := [0] }
    { originalname := "b.jpg", mimetype := "image/jpeg",
      filename := "1-2.jpg", bytes := [1] } "having coffee" 7 (by decide)

/-- Claim C10: the modelled `Buffer.from(payload, base64)` is a total
function, so whenever the provider answers with ANY string in
`data[0].b64_json` — well-formed base64 or not — the handlers write the
decoded output file and return the success envelope; no decode-failure
branch exists. -/
theorem c10_base64_decode_total_success
    (desc payload p : String) (f1 f2 : UploadedFile) (now : Nat)
    (hp : jsTrim p ≠ "") :
    ((createHandler (fun _ => Except.ok desc) (fun _ => Except.ok payload)
          [f1, f2] (some p) now).response =
        CreateResponse.success
          ("/outputs/" ++ ("polaroid-" ++ toString now ++ ".png"))) ∧
      ((createHandler (fun _ => Except.ok desc) (fun _ => Except.ok payload)
          [f1, f2] (some p) now).written =
        some ("polaroid-" ++ toString now ++ ".png",
          bufferFromBase64 payload)) ∧
      ((enhanceIphoneHandler (fun _ => Except.ok payload) (some f1)
          now).response =
        EnhanceResponse.success ("/uploads/" ++ f1.filename)
          ("/outputs/" ++ ("iphone17pro-" ++ toString now ++ ".png"))
          "iPhone 17 Pro") ∧
      ((enhanceIphoneHandler (fun _ => Except.ok payload) (some f1)
          now).written =
        some ("iphone17pro-" ++ toString now ++ ".png",
          bufferFromBase64 payload)) := by
  have hnp : ¬(p = "" ∨ jsTrim p = "") := by
    rintro (rfl | h)
    · exact hp rfl
    · exact hp h
  refine ⟨?_, ?_, ?_, ?_⟩ <;>
    simp [createHandler, hnp, generateTwoPeoplePolaroid,
      enhanceIphoneHandler, callOpenAIImageEdit]

/-- Witness for `c10_base64_decode_total_success` at a payload that is not
valid base64 at all. -/
theorem c10_witness :
    ((createHandler (fun _ => Except.ok "a person")
          (fun _ => Except.ok "!!not base64!!")
          [{ originalname := "a.png", mimetype := "image/png",
             filename := "1-1.png", bytes := [0] },
           { originalname := "b.jpg", mimetype := "image/jpeg",
             filename := "1-2.jpg", bytes := [1] }] (some "having coffee")
          7).response =
        CreateResponse.success
          ("/outputs/" ++ ("polaroid-" ++ toString (7 : Nat) ++ ".png"))) ∧
      ((createHandler (fun _ => Except.ok "a person")
          (fun _ => Except.ok "!!not base64!!")
          [{ originalname := "a.png", mimetype := "image/png",
             filename := "1-1.png", bytes := [0] },
           { originalname := "b.jpg", mimetype := "image/jpeg",
             filename := "1-2.jpg", bytes := [1] }] (some "having coffee")
          7).written =
        some ("polaroid-" ++ toString (7 : Nat) ++ ".png",
          bufferFromBase64 "!!not base64!!")) ∧
      ((enhanceIphoneHandler (fun _ => Except.ok "!!not base64!!")
          (some { originalname := "a.png", mimetype := "image/png",
                  filename := "1-1.png", bytes := [0] }) 7).response =
        EnhanceResponse.success ("/uploads/" ++ "1-1.png")
          ("/outputs/" ++ ("iphone17pro-" ++ toString (7 : Nat) ++ ".png"))
          "iPhone 17 Pro") ∧
      ((enhanceIphoneHandler (fun _ => Except.ok "!!not base64!!")
          (some { originalname := "a.png", mimetype := "image/png",
                  filename := "1-1.png", bytes := [0] }) 7).written =
        some ("iphone17pro-" ++ toString (7 : Nat) ++ ".png",
          bufferFromBase64 "!!not base64!!")) :=
  c10_base64_decode_total_success "a person" "!!not base64!!" "having coffee"
    { originalname := "a.png", mimetype := "image/png",
      filename := "1-1.png", bytes := [0] }
    { originalname := "b.jpg", mimetype := "image/jpeg",
      filename := "1-2.jpg", bytes := [1] } 7 (by decide)
